import Mathlib

/-!
Shallow embedding of `src/main/transaction/index.ts` (Frame's transaction
core): `populate`, `londonToLegacy`, `calculateMaxFeePerGas`,
`signerCompatibility` and `classifyTransaction`, together with models of the
JavaScript string/number primitives they call (`parseInt(s, 16)`,
`BigNumber(s)`, `BigNumber.prototype.toString(16)`, `addHexPrefix`,
`intToHex`).

JavaScript numbers that the module manipulates are arbitrary-precision here
(`BigNumber` is exact in the source; `parseInt` is only ever used for its
NaN-ness). A JS value that may be `NaN` is an `Option Int` with `none` for
`NaN`. Optional object fields are `Option String`; JS string falsiness
(`undefined`/`''`) is modelled explicitly.
-/

namespace Frame

/-! ### Characters and hex digits -/

/-- Numeric value of a hex digit character, `none` when the character is not
a hex digit. Mirrors the digit alphabet accepted by JS `parseInt(_, 16)` and
`BigNumber` hex parsing. -/
def hexDigit? (c : Char) : Option Nat :=
  if '0' ≤ c ∧ c ≤ '9' then some (c.toNat - 48)
  else if 'a' ≤ c ∧ c ≤ 'f' then some (c.toNat - 87)
  else if 'A' ≤ c ∧ c ≤ 'F' then some (c.toNat - 55)
  else none

/-- Numeric value of a decimal digit character. -/
def decDigit? (c : Char) : Option Nat :=
  if '0' ≤ c ∧ c ≤ '9' then some (c.toNat - 48) else none

/-- Value of a list of hex digits, most significant first; `none` when empty
or when any character is not a hex digit. -/
def hexValAux : List Char → Nat → Option Nat
  | [], acc => some acc
  | c :: cs, acc =>
    match hexDigit? c with
    | some d => hexValAux cs (16 * acc + d)
    | none => none

def hexVal (cs : List Char) : Option Nat :=
  if cs.isEmpty then none else hexValAux cs 0

/-- Value of a list of decimal digits, most significant first; `none` when
empty or when any character is not a decimal digit. -/
def decValAux : List Char → Nat → Option Nat
  | [], acc => some acc
  | c :: cs, acc =>
    match decDigit? c with
    | some d => decValAux cs (10 * acc + d)
    | none => none

def decVal (cs : List Char) : Option Nat :=
  if cs.isEmpty then none else decValAux cs 0

/-- Lower-case hex digit character for a value below 16 ('0'-'9', 'a'-'f'). -/
def hexDigitChar (n : Nat) : Char :=
  if n < 10 then Char.ofNat (48 + n) else Char.ofNat (87 + n)

/-- Digits of `n` in base 16 (most significant first), accumulator style.
`fuel` bounds the recursion; any `fuel > log16 n` yields all digits. -/
def natToHexAux : Nat → Nat → List Char → List Char
  | 0, _, acc => acc
  | fuel + 1, n, acc =>
    if n = 0 then acc else natToHexAux fuel (n / 16) (hexDigitChar (n % 16) :: acc)

/-- Minimal lower-case hex representation of a natural number, no `0x`
prefix: the output format of `BigNumber.prototype.toString(16)` and of
JS `Number.prototype.toString(16)` on naturals. -/
def natToHexStr (n : Nat) : String :=
  if n = 0 then "0" else String.mk (natToHexAux (n + 1) n [])

/-! ### JS number-parsing primitives -/

/-- JS `parseInt(s, 16)`: skip leading whitespace, optional sign, optional
`0x`/`0X` prefix, then the longest prefix of hex digits; `NaN` (here `none`)
when that run is empty. Trailing garbage is ignored. -/
def parseIntHex (s : String) : Option Int :=
  let cs := s.data.dropWhile Char.isWhitespace
  let signAndRest : Bool × List Char :=
    match cs with
    | '-' :: r => (true, r)
    | '+' :: r => (false, r)
    | r => (false, r)
  let body : List Char :=
    match signAndRest.2 with
    | '0' :: 'x' :: r => r
    | '0' :: 'X' :: r => r
    | r => r
  let digits := body.takeWhile (fun c => (hexDigit? c).isSome)
  match hexVal digits with
  | none => none
  | some n => some (if signAndRest.1 then -(n : Int) else (n : Int))

/-- `BigNumber(s)` on the integer strings this module feeds it: optional
sign, then either a `0x`/`0X`-prefixed all-hex-digit body or an all-decimal
body; anything else is `NaN` (`none`). (Unlike `parseInt`, `BigNumber`
rejects trailing garbage.) -/
def bigNumOfString (s : String) : Option Int :=
  let signAndRest : Bool × List Char :=
    match s.data with
    | '-' :: r => (true, r)
    | '+' :: r => (false, r)
    | r => (false, r)
  let mag : Option Nat :=
    match signAndRest.2 with
    | '0' :: 'x' :: r => hexVal r
    | '0' :: 'X' :: r => hexVal r
    | r => decVal r
  match mag with
  | none => none
  | some n => some (if signAndRest.1 then -(n : Int) else (n : Int))

/-- `BigNumber.prototype.plus`: exact arbitrary-precision addition, `NaN`
absorbing. -/
def bigNumPlus : Option Int → Option Int → Option Int
  | some a, some b => some (a + b)
  | _, _ => none

/-- `BigNumber.prototype.toString(16)`: minimal lower-case hex, `-` for
negatives, the string `"NaN"` for `NaN`. -/
def bigNumToStr16 : Option Int → String
  | none => "NaN"
  | some i => if i < 0 then "-" ++ natToHexStr i.natAbs else natToHexStr i.natAbs

/-! ### `@ethereumjs/util` string helpers -/

/-- `isHexPrefixed` from `@ethereumjs/util`: does the string start with
`0x`? -/
def isHexPrefixed (s : String) : Bool :=
  match s.data with
  | '0' :: 'x' :: _ => true
  | _ => false

/-- `addHexPrefix` from `@ethereumjs/util`. -/
def addHexPrefix (s : String) : String :=
  if isHexPrefixed s then s else "0x" ++ s

/-- `intToHex` from `@ethereumjs/util`: `'0x' + i.toString(16)` (used here
only on 0, 1, 2). -/
def intToHex (n : Nat) : String :=
  "0x" ++ natToHexStr n

/-! ### Data model -/

/-- Modelled from the spec: `gasFeesSource` provenance enum
`{User, Dapp, Frame}` (declared in `resources/domain/transaction`, which is
not under `src/`). -/
inductive GasFeesSource where
  | User
  | Dapp
  | Frame
deriving DecidableEq, Repr

/-- The `TransactionData` fields this module reads or writes, per the spec's
data model (the declaring file `resources/domain/transaction` is not under
`src/`): hex-string `chainId` and `type`, optional `nonce`/`to`/`value`/
`data`/`gasLimit`, optional legacy `gasPrice`, optional fee-market
`maxFeePerGas`/`maxPriorityFeePerGas`, and the `gasFeesSource` provenance
flag. An absent JS key is `none`. -/
structure TransactionData where
  chainId : String
  type : String
  nonce : Option String := none
  «to» : Option String := none
  value : Option String := none
  data : Option String := none
  gasLimit : Option String := none
  gasPrice : Option String := none
  maxFeePerGas : Option String := none
  maxPriorityFeePerGas : Option String := none
  gasFeesSource : GasFeesSource
deriving DecidableEq, Repr

/-- The EIP-1559 estimate in the Gas snapshot (`fees` sub-object), hex
strings as stored. -/
structure GasFees where
  maxBaseFeePerGas : String
  maxPriorityFeePerGas : String
deriving DecidableEq, Repr

/-- Gas price levels; `populate` reads only `fast` (the source casts it
`as string`). -/
structure GasLevels where
  slow : String := ""
  standard : String := ""
  fast : String
  asap : String := ""
deriving DecidableEq, Repr

structure GasPrice where
  levels : GasLevels
  fees : Option GasFees
deriving DecidableEq, Repr

/-- The Gas snapshot read model. -/
structure Gas where
  price : GasPrice
deriving DecidableEq, Repr

/-- The chain ruleset interface (`Common` from `@ethereumjs/common`, an
external collaborator): this module only calls `isActivatedEIP`. -/
structure ChainRuleset where
  isActivatedEIP : Nat → Bool

/-- Semantic firmware version of a signer (`AppVersion` from
`main/signers/Signer`, not under `src/`; per the spec, `{major, minor,
patch}` integers). -/
structure AppVersion where
  major : Nat
  minor : Nat
  patch : Nat
deriving DecidableEq, Repr

/-- `SignerSummary` per the spec's data model: signer-kind tag, firmware
version, optional hardware model string. -/
structure SignerSummary where
  type : String
  appVersion : AppVersion
  model : Option String := none
deriving DecidableEq, Repr

/-- `SignerCompatibility` record returned by `signerCompatibility`. -/
structure SignerCompatibility where
  signer : String
  tx : String
  compatible : Bool
deriving DecidableEq, Repr

/-- `TxClassification` enum (declared in `main/accounts/types`, not under
`src/`; members per the spec's data model). -/
inductive TxClassification where
  | CONTRACT_DEPLOY
  | SEND_DATA
  | CONTRACT_CALL
  | NATIVE_TRANSFER
deriving DecidableEq, Repr

/-- Modelled from the spec: the transaction request shape consumed by
`classifyTransaction` (`TransactionRequest` from `main/accounts/types` is
not under `src/`); the source destructures `payload.params[0]` into
`{to, data = '0x'}` and reads `recipientType`. -/
structure TransactionRequest where
  «to» : Option String
  data : Option String
  recipientType : String
deriving DecidableEq, Repr

/-! ### Helper predicates from collaborating modules -/

/-- Modelled from the spec: `typeSupportsBaseFee` from
`resources/domain/transaction` (not under `src/`) — a transaction type
supports a base fee exactly when it is the fee-market type `0x2`. -/
def typeSupportsBaseFee (type : String) : Bool :=
  type == "0x2"

/-- Modelled from the spec: `isNonZeroHex` from `resources/utils` (not under
`src/`) — the hex string has a non-zero payload: it is truthy and is neither
the bare `0x` marker nor the zero value `0x0`. -/
def isNonZeroHex (hex : String) : Bool :=
  hex != "" && hex != "0x" && hex != "0x0"

/-- The test `!x || isNaN(parseInt(x, 16))` applied by `populate` to the
optional fee fields of the raw request: the field is absent, empty (falsy),
or fails hex-integer parsing. -/
def missingOrUnparseable : Option String → Bool
  | none => true
  | some s => s == "" || (parseIntHex s).isNone

/-! ### `src/main/transaction/index.ts` -/

/-- The compatibility predicate for `trezor` signers in
`londonHardforkSigners`: the "trezor one" model needs 2.x+, or 1.x with
minor > 10 or 1.10.4+; other models need 3.x+, 2.5.x+, or 2.4.2+. -/
def trezorCompat (version : AppVersion) (model : Option String) : Bool :=
  if (model.getD "").toLower == "trezor one" then
    decide (version.major ≥ 2) ||
      (decide (version.major ≥ 1) &&
        (decide (version.minor > 10) || (decide (version.minor = 10) && decide (version.patch ≥ 4))))
  else
    decide (version.major ≥ 3) ||
      (decide (version.major = 2) && decide (version.minor ≥ 5)) ||
      (decide (version.major = 2) && decide (version.minor = 4) && decide (version.patch ≥ 2))

/-- The string-keyed dispatch table `londonHardforkSigners`; `none` models a
key absent from the JS object (the `signer.type in londonHardforkSigners`
test). -/
def londonHardforkSigners (signerType : String) :
    Option (AppVersion → Option String → Bool) :=
  if signerType == "seed" then some fun _ _ => true
  else if signerType == "ring" then some fun _ _ => true
  else if signerType == "ledger" then
    some fun version _ =>
      decide (version.major ≥ 2) || (decide (version.major ≥ 1) && decide (version.minor ≥ 9))
  else if signerType == "trezor" then some trezorCompat
  else if signerType == "lattice" then
    some fun version _ => decide (version.major ≥ 1) || decide (version.minor ≥ 11)
  else none

/-- `signerCompatibility(txData, signer)`. -/
def signerCompatibility (txData : TransactionData) (signer : SignerSummary) :
    SignerCompatibility :=
  if typeSupportsBaseFee txData.type then
    let compatible :=
      match londonHardforkSigners signer.type with
      | some predicate => predicate signer.appVersion signer.model
      | none => false
    { signer := signer.type, tx := "london", compatible := compatible }
  else
    { signer := signer.type, tx := "legacy", compatible := true }

/-- `londonToLegacy(txData)`: on type `0x2`, drop the `type`,
`maxFeePerGas` and `maxPriorityFeePerGas` keys by destructuring, then
rebuild with `type: '0x0'` and `gasPrice: maxFeePerGas`; otherwise return
the input unchanged. -/
def londonToLegacy (txData : TransactionData) : TransactionData :=
  if txData.type == "0x2" then
    { txData with
        type := "0x0"
        gasPrice := txData.maxFeePerGas
        maxFeePerGas := none
        maxPriorityFeePerGas := none }
  else txData

/-- `calculateMaxFeePerGas(maxBaseFee, maxPriorityFee)` =
`addHexPrefix(BigNumber(maxPriorityFee).plus(maxBaseFee).toString(16))`. -/
def calculateMaxFeePerGas (maxBaseFee maxPriorityFee : String) : String :=
  addHexPrefix (bigNumToStr16 (bigNumPlus (bigNumOfString maxPriorityFee) (bigNumOfString maxBaseFee)))

/-- The non-EIP-1559 arm of `populate` (source lines 86-98): set `type` to
`0x1`/`0x0` by EIP-2930 activation; substitute the snapshot's `fast` level
and flag `gasFeesSource = Frame` when the request's `gasPrice` is falsy or
unparseable. -/
def populateLegacy (rawTx : TransactionData) (chainCfg : ChainRuleset) (gas : Gas) :
    TransactionData :=
  let txData := { rawTx with type := intToHex (if chainCfg.isActivatedEIP 2930 then 1 else 0) }
  let useFrameGasPrice := missingOrUnparseable rawTx.gasPrice
  if useFrameGasPrice then
    { txData with
        gasPrice := some (addHexPrefix (bigNumToStr16 (bigNumOfString gas.price.levels.fast)))
        gasFeesSource := GasFeesSource.Frame }
  else txData

/-- The EIP-1559 arm of `populate` (source lines 100-133), with the `fees`
sub-object already known present. -/
def populateFeeMarket (rawTx : TransactionData) (fees : GasFees) : TransactionData :=
  let txData := { rawTx with type := intToHex 2 }
  let useFrameMaxFeePerGas := missingOrUnparseable rawTx.maxFeePerGas
  let useFrameMaxPriorityFeePerGas := missingOrUnparseable rawTx.maxPriorityFeePerGas
  if !useFrameMaxFeePerGas && !useFrameMaxPriorityFeePerGas then
    -- return tx unaltered when we are using no Frame-supplied values
    txData
  else
    let txData :=
      if useFrameMaxFeePerGas && useFrameMaxPriorityFeePerGas then
        { txData with gasFeesSource := GasFeesSource.Frame }
      else txData
    let maxPriorityFee :=
      if useFrameMaxPriorityFeePerGas && fees.maxPriorityFeePerGas != "" then
        fees.maxPriorityFeePerGas
      else rawTx.maxPriorityFeePerGas.getD ""
    let txData :=
      if useFrameMaxFeePerGas && fees.maxBaseFeePerGas != "" then
        { txData with
            maxFeePerGas := some (calculateMaxFeePerGas fees.maxBaseFeePerGas maxPriorityFee) }
      else txData
    if useFrameMaxPriorityFeePerGas then
      { txData with
          maxPriorityFeePerGas := some (addHexPrefix (bigNumToStr16 (bigNumOfString maxPriorityFee))) }
    else txData

/-- `populate(rawTx, chainConfig, gas)`. The source guard is
`!chainConfig.isActivatedEIP(1559) || !gas.price.fees`; matching on `fees`
first is equivalent: `fees` absent always takes the legacy arm, and with
`fees` present the guard reduces to the EIP-1559 activation test. -/
def populate (rawTx : TransactionData) (chainCfg : ChainRuleset) (gas : Gas) :
    TransactionData :=
  match gas.price.fees with
  | none => populateLegacy rawTx chainCfg gas
  | some fees =>
    if chainCfg.isActivatedEIP 1559 then populateFeeMarket rawTx fees
    else populateLegacy rawTx chainCfg gas

/-- `classifyTransaction`: destructure `{to, data = '0x'}` from the first
call parameter, then test in order: falsy `to` → deploy; external recipient
with payload (`data.length > 2`) → send-data; non-zero hex data to a
non-external recipient → contract call; otherwise native transfer. -/
def classifyTransaction (req : TransactionRequest) : TxClassification :=
  let data := req.data.getD "0x"
  if req.«to» = none ∨ req.«to» = some "" then TxClassification.CONTRACT_DEPLOY
  else if req.recipientType == "external" && data.length > 2 then TxClassification.SEND_DATA
  else if isNonZeroHex data && req.recipientType != "external" then TxClassification.CONTRACT_CALL
  else TxClassification.NATIVE_TRANSFER

/-! ### Claim-side definitions and concrete fixtures -/

/-- The version-gated EIP-1559 compatibility matrix as the spec states it,
to be compared with the dispatch-table implementation. -/
def londonCompatMatrix (signer : SignerSummary) : Bool :=
  let v := signer.appVersion
  if signer.type = "seed" ∨ signer.type = "ring" then true
  else if signer.type = "ledger" then
    decide (v.major ≥ 2 ∨ (v.major ≥ 1 ∧ v.minor ≥ 9))
  else if signer.type = "trezor" then
    if (signer.model.getD "").toLower = "trezor one" then
      decide (v.major ≥ 2 ∨ (v.major ≥ 1 ∧ (v.minor > 10 ∨ (v.minor = 10 ∧ v.patch ≥ 4))))
    else
      decide (v.major ≥ 3 ∨ (v.major = 2 ∧ v.minor ≥ 5) ∨
        (v.major = 2 ∧ v.minor = 4 ∧ v.patch ≥ 2))
  else if signer.type = "lattice" then
    decide (v.major ≥ 1 ∨ v.minor ≥ 11)
  else false

/-- The precondition of the idempotence property: the fee fields that are
active for this chain/Gas context (`gasPrice` in the legacy case,
`maxFeePerGas`/`maxPriorityFeePerGas` in the fee-market case) are filled
with valid hex. -/
def activeFeesFilled (tx : TransactionData) (cc : ChainRuleset) (gas : Gas) : Bool :=
  if cc.isActivatedEIP 1559 && gas.price.fees.isSome then
    !missingOrUnparseable tx.maxFeePerGas && !missingOrUnparseable tx.maxPriorityFeePerGas
  else
    !missingOrUnparseable tx.gasPrice

/-- A ruleset with no relevant EIP activated (pre-Berlin). -/
def frontierChain : ChainRuleset := ⟨fun _ => false⟩

/-- A ruleset with EIP-2930 but not EIP-1559 activated. -/
def berlinChain : ChainRuleset := ⟨fun n => n == 2930⟩

/-- A ruleset with EIP-1559 and EIP-2930 activated. -/
def londonChain : ChainRuleset := ⟨fun n => n == 1559 || n == 2930⟩

/-- A Gas snapshot with no `fees` estimate and `fast` level `0x9`. -/
def gasNoFees : Gas := ⟨⟨⟨"", "", "0x9", ""⟩, none⟩⟩

/-- A Gas snapshot with `fees = {maxBaseFeePerGas: '0x64',
maxPriorityFeePerGas: '0x5'}` and `fast` level `0x9`. -/
def gasWithFees : Gas := ⟨⟨⟨"", "", "0x9", ""⟩, some ⟨"0x64", "0x5"⟩⟩⟩

/-- A bare legacy request: no fee field supplied. -/
def sampleLegacyTx : TransactionData :=
  { chainId := "0x1", type := "0x0", gasFeesSource := GasFeesSource.Dapp }

/-- A fee-market request with both fee fields supplied as valid hex. -/
def sampleLondonTx : TransactionData :=
  { chainId := "0x1", type := "0x2", maxFeePerGas := some "0x64",
    maxPriorityFeePerGas := some "0x5", gasFeesSource := GasFeesSource.Dapp }

/-- A request with legacy `type` but valid fee-market fee fields. -/
def bothValidLegacyTypeTx : TransactionData :=
  { chainId := "0x1", type := "0x0", maxFeePerGas := some "0x64",
    maxPriorityFeePerGas := some "0x5", gasFeesSource := GasFeesSource.Dapp }

/-- A request carrying a stray `maxFeePerGas` on a legacy chain. -/
def strayFeeMarketFieldTx : TransactionData :=
  { chainId := "0x1", type := "0x0", gasPrice := some "0x7",
    maxFeePerGas := some "0x5", gasFeesSource := GasFeesSource.Dapp }

/-- A ledger signer at firmware 1.8.0 (the spec's incompatible example). -/
def ledgerOldSigner : SignerSummary := ⟨"ledger", ⟨1, 8, 0⟩, none⟩

/-! ### Supporting lemmas on the string/number primitives -/

theorem hexDigitChar_ne_x (d : Nat) (hd : d < 16) : hexDigitChar d ≠ 'x' := by
  interval_cases d <;> decide

theorem x_not_mem_natToHexAux :
    ∀ (fuel n : Nat) (acc : List Char), 'x' ∉ acc → 'x' ∉ natToHexAux fuel n acc := by
  intro fuel
  induction fuel with
  | zero => intro n acc h; simpa [natToHexAux] using h
  | succ fuel ih =>
    intro n acc h
    unfold natToHexAux
    split
    · exact h
    · refine ih (n / 16) _ ?_
      intro hmem
      rcases List.mem_cons.mp hmem with h1 | h2
      · exact hexDigitChar_ne_x (n % 16) (Nat.mod_lt _ (by norm_num)) h1.symm
      · exact h h2

theorem isHexPrefixed_eq_false {s : String} (h : 'x' ∉ s.data) : isHexPrefixed s = false := by
  unfold isHexPrefixed
  split
  · next heq => exact absurd (by rw [heq]; simp) h
  · rfl

theorem isHexPrefixed_natToHexStr (n : Nat) : isHexPrefixed (natToHexStr n) = false := by
  unfold natToHexStr
  split
  · rfl
  · exact isHexPrefixed_eq_false (x_not_mem_natToHexAux (n + 1) n [] (by simp))

/-- The hex encoder never produces a `0x`-prefixed string, so `addHexPrefix`
always prepends. -/
theorem addHexPrefix_natToHexStr (n : Nat) :
    addHexPrefix (natToHexStr n) = "0x" ++ natToHexStr n := by
  simp [addHexPrefix, isHexPrefixed_natToHexStr]

theorem bigNumToStr16_natCast (v : Nat) : bigNumToStr16 (some (v : ℤ)) = natToHexStr v := by
  simp [bigNumToStr16, Int.not_lt.mpr (Int.natCast_nonneg v)]

theorem bigNumPlus_natCast (p b : Nat) :
    bigNumPlus (some (p : ℤ)) (some (b : ℤ)) = some ((p + b : Nat) : ℤ) := by
  simp [bigNumPlus]

theorem bigNumOfString_empty : bigNumOfString "" = none := rfl

theorem bigNumOfString_ne_empty {s : String} {v : ℤ} (h : bigNumOfString s = some v) :
    s ≠ "" := by
  intro he
  rw [he, bigNumOfString_empty] at h
  exact Option.noConfusion h

theorem intToHex_zero : intToHex 0 = "0x0" := rfl

theorem intToHex_one : intToHex 1 = "0x1" := rfl

theorem intToHex_two : intToHex 2 = "0x2" := rfl

/-! ### Lemmas on the two arms of `populate` -/

theorem populateLegacy_type (r : TransactionData) (cc : ChainRuleset) (gas : Gas) :
    (populateLegacy r cc gas).type = intToHex (if cc.isActivatedEIP 2930 then 1 else 0) := by
  cases h : missingOrUnparseable r.gasPrice <;> simp [populateLegacy, h]

/-- The legacy arm only ever writes `type`, `gasPrice` and `gasFeesSource`. -/
theorem populateLegacy_frames (r : TransactionData) (cc : ChainRuleset) (gas : Gas) :
    (populateLegacy r cc gas).chainId = r.chainId ∧
    (populateLegacy r cc gas).nonce = r.nonce ∧
    (populateLegacy r cc gas).«to» = r.«to» ∧
    (populateLegacy r cc gas).value = r.value ∧
    (populateLegacy r cc gas).data = r.data ∧
    (populateLegacy r cc gas).gasLimit = r.gasLimit ∧
    (populateLegacy r cc gas).maxFeePerGas = r.maxFeePerGas ∧
    (populateLegacy r cc gas).maxPriorityFeePerGas = r.maxPriorityFeePerGas := by
  cases h : missingOrUnparseable r.gasPrice <;> simp [populateLegacy, h]

theorem populateFeeMarket_type (r : TransactionData) (fees : GasFees) :
    (populateFeeMarket r fees).type = "0x2" := by
  cases hf : missingOrUnparseable r.maxFeePerGas <;>
    cases hp : missingOrUnparseable r.maxPriorityFeePerGas <;>
      cases hb : fees.maxBaseFeePerGas != "" <;>
        simp [populateFeeMarket, hf, hp, hb, intToHex, natToHexStr, natToHexAux, hexDigitChar]

/-- The fee-market arm only ever writes `type`, the two fee-market fee
fields and `gasFeesSource`. -/
theorem populateFeeMarket_frames (r : TransactionData) (fees : GasFees) :
    (populateFeeMarket r fees).chainId = r.chainId ∧
    (populateFeeMarket r fees).nonce = r.nonce ∧
    (populateFeeMarket r fees).«to» = r.«to» ∧
    (populateFeeMarket r fees).value = r.value ∧
    (populateFeeMarket r fees).data = r.data ∧
    (populateFeeMarket r fees).gasLimit = r.gasLimit ∧
    (populateFeeMarket r fees).gasPrice = r.gasPrice := by
  cases hf : missingOrUnparseable r.maxFeePerGas <;>
    cases hp : missingOrUnparseable r.maxPriorityFeePerGas <;>
      cases hb : fees.maxBaseFeePerGas != "" <;>
        simp [populateFeeMarket, hf, hp, hb]

/-- `populate` takes the legacy arm exactly when EIP-1559 is not activated
or the snapshot has no `fees` estimate. -/
theorem populate_eq_legacy (r : TransactionData) (cc : ChainRuleset) (gas : Gas)
    (hc : cc.isActivatedEIP 1559 = false ∨ gas.price.fees = none) :
    populate r cc gas = populateLegacy r cc gas := by
  unfold populate
  cases hfees : gas.price.fees with
  | none => rfl
  | some fees =>
    rcases hc with hc | hc
    · simp [hc]
    · rw [hfees] at hc; exact absurd hc (by simp)

theorem populate_eq_feeMarket (r : TransactionData) (cc : ChainRuleset) (gas : Gas)
    (fees : GasFees) (hfees : gas.price.fees = some fees)
    (h1559 : cc.isActivatedEIP 1559 = true) :
    populate r cc gas = populateFeeMarket r fees := by
  unfold populate
  rw [hfees]
  simp [h1559]

/-- A transaction whose `type` and `gasPrice` already match what the legacy
arm would produce is a fixed point of that arm. -/
theorem populateLegacy_fixed (t : TransactionData) (cc : ChainRuleset) (gas : Gas)
    (htype : t.type = intToHex (if cc.isActivatedEIP 2930 then 1 else 0))
    (hgp : missingOrUnparseable t.gasPrice = false) :
    populateLegacy t cc gas = t := by
  simp [populateLegacy, hgp, ← htype]

/-- A transaction with type `0x2` and valid fee-market fee fields is a fixed
point of the fee-market arm. -/
theorem populateFeeMarket_fixed (t : TransactionData) (fees : GasFees)
    (htype : t.type = "0x2")
    (hmf : missingOrUnparseable t.maxFeePerGas = false)
    (hmp : missingOrUnparseable t.maxPriorityFeePerGas = false) :
    populateFeeMarket t fees = t := by
  simp [populateFeeMarket, hmf, hmp, intToHex_two, ← htype]

/-- `populate` either takes the legacy arm (output type `0x0`/`0x1`) or,
with `fees` present and EIP-1559 active, the fee-market arm (output type
`0x2`). -/
theorem populate_path (rawTx : TransactionData) (cc : ChainRuleset) (gas : Gas) :
    (populate rawTx cc gas = populateLegacy rawTx cc gas ∧
      ((populate rawTx cc gas).type = "0x0" ∨ (populate rawTx cc gas).type = "0x1")) ∨
    ((∃ fees, gas.price.fees = some fees ∧ populate rawTx cc gas = populateFeeMarket rawTx fees) ∧
      (populate rawTx cc gas).type = "0x2") := by
  cases hfees : gas.price.fees with
  | none =>
    left
    have he := populate_eq_legacy rawTx cc gas (Or.inr hfees)
    refine ⟨he, ?_⟩
    rw [he, populateLegacy_type]
    cases h2930 : cc.isActivatedEIP 2930
    · left; simp [intToHex_zero]
    · right; simp [intToHex_one]
  | some fees =>
    cases h1559 : cc.isActivatedEIP 1559 with
    | false =>
      left
      have he := populate_eq_legacy rawTx cc gas (Or.inl h1559)
      refine ⟨he, ?_⟩
      rw [he, populateLegacy_type]
      cases h2930 : cc.isActivatedEIP 2930
      · left; simp [intToHex_zero]
      · right; simp [intToHex_one]
    | true =>
      right
      have he := populate_eq_feeMarket rawTx cc gas fees hfees h1559
      exact ⟨⟨fees, rfl, he⟩, by rw [he]; exact populateFeeMarket_type rawTx fees⟩

/-! ### Claim theorems -/

/-- **C1 (amended).** On a fee-market-active chain with a `fees` estimate,
when both request fee-market fields are valid hex, `populate` returns the
input with only `type` set to `'0x2'` — every other field, `gasFeesSource`
included, is unchanged (so an input whose `type` is already `'0x2'` is
returned unchanged). -/
theorem populate_bothValid (rawTx : TransactionData) (cc : ChainRuleset) (gas : Gas)
    (fees : GasFees) (hfees : gas.price.fees = some fees)
    (h1559 : cc.isActivatedEIP 1559 = true)
    (hmf : missingOrUnparseable rawTx.maxFeePerGas = false)
    (hmp : missingOrUnparseable rawTx.maxPriorityFeePerGas = false) :
    populate rawTx cc gas = { rawTx with type := "0x2" } := by
  rw [populate_eq_feeMarket rawTx cc gas fees hfees h1559]
  simp [populateFeeMarket, hmf, hmp, intToHex_two]

/-- Counterexample to C1 as stated: a request with `type = '0x0'` and both
fee-market fields valid hex, on a fee-market-active chain, is *not* returned
unchanged — `populate` overwrites `type`. -/
theorem populate_bothValid_counterexample :
    londonChain.isActivatedEIP 1559 = true ∧
    gasWithFees.price.fees.isSome = true ∧
    missingOrUnparseable bothValidLegacyTypeTx.maxFeePerGas = false ∧
    missingOrUnparseable bothValidLegacyTypeTx.maxPriorityFeePerGas = false ∧
    populate bothValidLegacyTypeTx londonChain gasWithFees ≠ bothValidLegacyTypeTx := by
  decide

/-- Witness for C1 (amended) at a request already of type `'0x2'`. -/
theorem populate_bothValid_witness :
    gasWithFees.price.fees = some ⟨"0x64", "0x5"⟩ ∧
    londonChain.isActivatedEIP 1559 = true ∧
    missingOrUnparseable sampleLondonTx.maxFeePerGas = false ∧
    missingOrUnparseable sampleLondonTx.maxPriorityFeePerGas = false ∧
    populate sampleLondonTx londonChain gasWithFees = { sampleLondonTx with type := "0x2" } :=
  ⟨rfl, by decide, by decide, by decide,
    populate_bothValid sampleLondonTx londonChain gasWithFees ⟨"0x64", "0x5"⟩ rfl
      (by decide) (by decide) (by decide)⟩

/-- **C2 (amended).** Neither `populate` nor `londonToLegacy` ever *writes*
a cross-family fee field: a fee-market (`0x2`) output of `populate` carries
exactly the input's `gasPrice`, a legacy (`0x0`/`0x1`) output carries
exactly the input's `maxFeePerGas`/`maxPriorityFeePerGas` (so outputs are
type-consistent whenever the input carries no stray cross-family fields),
and `londonToLegacy` removes both fee-market fields when downgrading and is
the identity otherwise. -/
theorem populate_londonToLegacy_type_consistent (rawTx : TransactionData)
    (cc : ChainRuleset) (gas : Gas) (tx : TransactionData) :
    ((populate rawTx cc gas).type = "0x2" →
      (populate rawTx cc gas).gasPrice = rawTx.gasPrice) ∧
    ((populate rawTx cc gas).type = "0x0" ∨ (populate rawTx cc gas).type = "0x1" →
      (populate rawTx cc gas).maxFeePerGas = rawTx.maxFeePerGas ∧
      (populate rawTx cc gas).maxPriorityFeePerGas = rawTx.maxPriorityFeePerGas) ∧
    (tx.type = "0x2" →
      (londonToLegacy tx).type = "0x0" ∧ (londonToLegacy tx).maxFeePerGas = none ∧
      (londonToLegacy tx).maxPriorityFeePerGas = none) ∧
    (tx.type ≠ "0x2" → londonToLegacy tx = tx) := by
  refine ⟨?_, ?_, fun h => by simp [londonToLegacy, h], fun h => by simp [londonToLegacy, h]⟩
  · intro htype
    rcases populate_path rawTx cc gas with ⟨he, hty⟩ | ⟨⟨fees, _, he⟩, _⟩
    · rcases hty with hty | hty <;> rw [htype] at hty <;> simp at hty
    · rw [he]
      exact (populateFeeMarket_frames rawTx fees).2.2.2.2.2.2
  · intro htype
    rcases populate_path rawTx cc gas with ⟨he, _⟩ | ⟨⟨fees, _, he⟩, hty⟩
    · rw [he]
      exact ⟨(populateLegacy_frames rawTx cc gas).2.2.2.2.2.2.1,
        (populateLegacy_frames rawTx cc gas).2.2.2.2.2.2.2⟩
    · rcases htype with htype | htype <;> rw [htype] at hty <;> simp at hty

/-- Counterexample to C2 as stated: on a chain with no relevant EIPs, a
request carrying a valid legacy `gasPrice` *and* a stray `maxFeePerGas`
yields an output with legacy type `'0x0'` that still carries
`maxFeePerGas`. -/
theorem populate_type_consistency_counterexample :
    (populate strayFeeMarketFieldTx frontierChain gasNoFees).type = "0x0" ∧
    (populate strayFeeMarketFieldTx frontierChain gasNoFees).maxFeePerGas = some "0x5" := by
  decide

/-- Witness for C2 (amended) at concrete fee-market inputs. -/
theorem populate_londonToLegacy_type_consistent_witness :
    ((populate sampleLondonTx londonChain gasWithFees).type = "0x2" ∧
      (populate sampleLondonTx londonChain gasWithFees).gasPrice = sampleLondonTx.gasPrice) ∧
    (sampleLondonTx.type = "0x2" ∧
      (londonToLegacy sampleLondonTx).maxFeePerGas = none ∧
      (londonToLegacy sampleLondonTx).maxPriorityFeePerGas = none) :=
  ⟨⟨by decide,
      (populate_londonToLegacy_type_consistent sampleLondonTx londonChain gasWithFees
        sampleLondonTx).1 (by decide)⟩,
    ⟨rfl,
      ((populate_londonToLegacy_type_consistent sampleLondonTx londonChain gasWithFees
        sampleLondonTx).2.2.1 rfl).2.1,
      ((populate_londonToLegacy_type_consistent sampleLondonTx londonChain gasWithFees
        sampleLondonTx).2.2.1 rfl).2.2⟩⟩

/-- **C5.** On a fee-market-active chain whose snapshot offers both
estimates, when both request fee-market fields are missing or unparseable,
`populate` outputs `gasFeesSource = Frame`, `maxPriorityFeePerGas` equal to
the snapshot's priority fee `p`, and `maxFeePerGas` equal to the exact
integer sum `p + maxBaseFeePerGas`, both `0x`-prefixed lower-case hex. -/
theorem populate_bothMissing_frame_fees (rawTx : TransactionData) (cc : ChainRuleset)
    (gas : Gas) (fees : GasFees) (p b : Nat)
    (hfees : gas.price.fees = some fees)
    (h1559 : cc.isActivatedEIP 1559 = true)
    (hmf : missingOrUnparseable rawTx.maxFeePerGas = true)
    (hmp : missingOrUnparseable rawTx.maxPriorityFeePerGas = true)
    (hp : bigNumOfString fees.maxPriorityFeePerGas = some (p : ℤ))
    (hb : bigNumOfString fees.maxBaseFeePerGas = some (b : ℤ)) :
    (populate rawTx cc gas).gasFeesSource = GasFeesSource.Frame ∧
    (populate rawTx cc gas).maxPriorityFeePerGas = some ("0x" ++ natToHexStr p) ∧
    (populate rawTx cc gas).maxFeePerGas = some ("0x" ++ natToHexStr (p + b)) := by
  rw [populate_eq_feeMarket rawTx cc gas fees hfees h1559]
  have hpne : fees.maxPriorityFeePerGas ≠ "" := bigNumOfString_ne_empty hp
  have hbne : fees.maxBaseFeePerGas ≠ "" := bigNumOfString_ne_empty hb
  simp [populateFeeMarket, hmf, hmp, hpne, hbne, calculateMaxFeePerGas, hp, hb,
    bigNumPlus_natCast, bigNumToStr16_natCast, addHexPrefix_natToHexStr]
  have hcast : ((p : ℤ) + (b : ℤ)) = ((p + b : Nat) : ℤ) := by push_cast; ring
  rw [hcast, bigNumToStr16_natCast, addHexPrefix_natToHexStr]

/-- Witness for C5: `0x5 + 0x64 = 0x69` at the sample snapshot. -/
theorem populate_bothMissing_frame_fees_witness :
    gasWithFees.price.fees = some ⟨"0x64", "0x5"⟩ ∧
    londonChain.isActivatedEIP 1559 = true ∧
    missingOrUnparseable sampleLegacyTx.maxFeePerGas = true ∧
    missingOrUnparseable sampleLegacyTx.maxPriorityFeePerGas = true ∧
    bigNumOfString (GasFees.mk "0x64" "0x5").maxPriorityFeePerGas = some ((5 : Nat) : ℤ) ∧
    bigNumOfString (GasFees.mk "0x64" "0x5").maxBaseFeePerGas = some ((100 : Nat) : ℤ) ∧
    ((populate sampleLegacyTx londonChain gasWithFees).gasFeesSource = GasFeesSource.Frame ∧
      (populate sampleLegacyTx londonChain gasWithFees).maxPriorityFeePerGas =
        some ("0x" ++ natToHexStr 5) ∧
      (populate sampleLegacyTx londonChain gasWithFees).maxFeePerGas =
        some ("0x" ++ natToHexStr (5 + 100))) :=
  ⟨rfl, by decide, by decide, by decide, by decide, by decide,
    populate_bothMissing_frame_fees sampleLegacyTx londonChain gasWithFees ⟨"0x64", "0x5"⟩
      5 100 rfl (by decide) (by decide) (by decide) (by decide) (by decide)⟩

/-- **C9.** Once the output of `populate` has its active fee fields filled
with valid hex (`gasPrice` in the legacy case, the two fee-market fields in
the fee-market case), applying `populate` again in the same chain/Gas
context returns that output unchanged. -/
theorem populate_idempotent (rawTx : TransactionData) (cc : ChainRuleset) (gas : Gas)
    (h : activeFeesFilled (populate rawTx cc gas) cc gas = true) :
    populate (populate rawTx cc gas) cc gas = populate rawTx cc gas := by
  cases hfees : gas.price.fees with
  | none =>
    have he := populate_eq_legacy rawTx cc gas (Or.inr hfees)
    have hgp : missingOrUnparseable (populate rawTx cc gas).gasPrice = false := by
      unfold activeFeesFilled at h
      rw [hfees] at h
      simpa using h
    rw [populate_eq_legacy (populate rawTx cc gas) cc gas (Or.inr hfees)]
    apply populateLegacy_fixed
    · rw [he]; exact populateLegacy_type rawTx cc gas
    · exact hgp
  | some fees =>
    cases h1559 : cc.isActivatedEIP 1559 with
    | false =>
      have he := populate_eq_legacy rawTx cc gas (Or.inl h1559)
      have hgp : missingOrUnparseable (populate rawTx cc gas).gasPrice = false := by
        unfold activeFeesFilled at h
        rw [hfees, h1559] at h
        simpa using h
      rw [populate_eq_legacy (populate rawTx cc gas) cc gas (Or.inl h1559)]
      apply populateLegacy_fixed
      · rw [he]; exact populateLegacy_type rawTx cc gas
      · exact hgp
    | true =>
      have he := populate_eq_feeMarket rawTx cc gas fees hfees h1559
      have hok : missingOrUnparseable (populate rawTx cc gas).maxFeePerGas = false ∧
          missingOrUnparseable (populate rawTx cc gas).maxPriorityFeePerGas = false := by
        unfold activeFeesFilled at h
        rw [hfees, h1559] at h
        simpa using h
      rw [populate_eq_feeMarket (populate rawTx cc gas) cc gas fees hfees h1559]
      apply populateFeeMarket_fixed
      · rw [he]; exact populateFeeMarket_type rawTx fees
      · exact hok.1
      · exact hok.2

/-- Witness for C9: repopulating an output whose fee-market fields were
Frame-filled is a no-op. -/
theorem populate_idempotent_witness :
    activeFeesFilled (populate sampleLegacyTx londonChain gasWithFees) londonChain gasWithFees
      = true ∧
    populate (populate sampleLegacyTx londonChain gasWithFees) londonChain gasWithFees =
      populate sampleLegacyTx londonChain gasWithFees :=
  ⟨by decide, populate_idempotent sampleLegacyTx londonChain gasWithFees (by decide)⟩

/-! ### Remaining claim theorems -/

/-- **C3.** When the ruleset lacks EIP-1559 activation or the Gas snapshot
lacks a `fees` estimate, `populate` outputs `type = '0x1'` if EIP-2930 is
activated and `'0x0'` otherwise, and leaves `maxFeePerGas` and
`maxPriorityFeePerGas` exactly as in the input. -/
theorem populate_nonFeeMarket (rawTx : TransactionData) (cc : ChainRuleset) (gas : Gas)
    (hc : cc.isActivatedEIP 1559 = false ∨ gas.price.fees = none) :
    (populate rawTx cc gas).type = (if cc.isActivatedEIP 2930 then "0x1" else "0x0") ∧
    (populate rawTx cc gas).maxFeePerGas = rawTx.maxFeePerGas ∧
    (populate rawTx cc gas).maxPriorityFeePerGas = rawTx.maxPriorityFeePerGas := by
  rw [populate_eq_legacy rawTx cc gas hc]
  refine ⟨?_, (populateLegacy_frames rawTx cc gas).2.2.2.2.2.2.1,
    (populateLegacy_frames rawTx cc gas).2.2.2.2.2.2.2⟩
  rw [populateLegacy_type]
  cases h2930 : cc.isActivatedEIP 2930 <;> simp [h2930, intToHex_one, intToHex_zero]

/-- Witness for C3: a fee-market request on an EIP-2930-only chain gets
type `'0x1'` and keeps its fee-market fields. -/
theorem populate_nonFeeMarket_witness :
    (berlinChain.isActivatedEIP 1559 = false ∨ gasNoFees.price.fees = none) ∧
    ((populate sampleLondonTx berlinChain gasNoFees).type =
        (if berlinChain.isActivatedEIP 2930 then "0x1" else "0x0") ∧
      (populate sampleLondonTx berlinChain gasNoFees).maxFeePerGas =
        sampleLondonTx.maxFeePerGas ∧
      (populate sampleLondonTx berlinChain gasNoFees).maxPriorityFeePerGas =
        sampleLondonTx.maxPriorityFeePerGas) :=
  ⟨Or.inl (by decide),
    populate_nonFeeMarket sampleLondonTx berlinChain gasNoFees (Or.inl (by decide))⟩

/-- **C4.** In the non-fee-market case: a missing or unparseable request
`gasPrice` is replaced by the hex encoding of the snapshot's `fast` level
with `gasFeesSource = Frame`; a valid one is kept with its provenance. -/
theorem populate_legacy_gasPrice_source (rawTx : TransactionData) (cc : ChainRuleset)
    (gas : Gas) (v : Nat)
    (hc : cc.isActivatedEIP 1559 = false ∨ gas.price.fees = none)
    (hfast : bigNumOfString gas.price.levels.fast = some (v : ℤ)) :
    (missingOrUnparseable rawTx.gasPrice = true →
      (populate rawTx cc gas).gasPrice = some ("0x" ++ natToHexStr v) ∧
      (populate rawTx cc gas).gasFeesSource = GasFeesSource.Frame) ∧
    (missingOrUnparseable rawTx.gasPrice = false →
      (populate rawTx cc gas).gasPrice = rawTx.gasPrice ∧
      (populate rawTx cc gas).gasFeesSource = rawTx.gasFeesSource) := by
  rw [populate_eq_legacy rawTx cc gas hc]
  constructor <;> intro h
  · simp [populateLegacy, h, hfast, bigNumToStr16_natCast, addHexPrefix_natToHexStr]
  · simp [populateLegacy, h]

/-- Witness for C4: a request without `gasPrice` on a legacy chain gets the
`fast` level `0x9` and `Frame` provenance. -/
theorem populate_legacy_gasPrice_source_witness :
    (berlinChain.isActivatedEIP 1559 = false ∨ gasNoFees.price.fees = none) ∧
    bigNumOfString gasNoFees.price.levels.fast = some ((9 : Nat) : ℤ) ∧
    missingOrUnparseable sampleLegacyTx.gasPrice = true ∧
    ((populate sampleLegacyTx berlinChain gasNoFees).gasPrice =
        some ("0x" ++ natToHexStr 9) ∧
      (populate sampleLegacyTx berlinChain gasNoFees).gasFeesSource = GasFeesSource.Frame) :=
  ⟨Or.inl (by decide), by decide, by decide,
    (populate_legacy_gasPrice_source sampleLegacyTx berlinChain gasNoFees 9
      (Or.inl (by decide)) (by decide)).1 (by decide)⟩

/-- **C6.** `londonToLegacy` on a type-`0x2` transaction yields a copy with
`type = '0x0'`, `gasPrice` equal to the original `maxFeePerGas`, both
fee-market fields removed, and all other fields unchanged; on any other type
it is the identity. -/
theorem londonToLegacy_contract (tx : TransactionData) :
    (tx.type = "0x2" →
      londonToLegacy tx = { tx with
                            type := "0x0"
                            gasPrice := tx.maxFeePerGas
                            maxFeePerGas := none
                            maxPriorityFeePerGas := none }) ∧
    (tx.type ≠ "0x2" → londonToLegacy tx = tx) := by
  constructor <;> intro h <;> simp [londonToLegacy, h]

/-- Witness for C6: the spec's example, `maxFeePerGas = '0x64'` becoming the
legacy `gasPrice`. -/
theorem londonToLegacy_contract_witness :
    sampleLondonTx.type = "0x2" ∧
    londonToLegacy sampleLondonTx = { sampleLondonTx with
                                      type := "0x0"
                                      gasPrice := sampleLondonTx.maxFeePerGas
                                      maxFeePerGas := none
                                      maxPriorityFeePerGas := none } :=
  ⟨rfl, (londonToLegacy_contract sampleLondonTx).1 rfl⟩

/-- **C10.** For every input, `populate` returns the input's `chainId`,
`nonce`, `to`, `value`, `data` and `gasLimit` untouched: it only ever writes
`type`, `gasPrice`, `maxFeePerGas`, `maxPriorityFeePerGas` and
`gasFeesSource` (and, being a pure function of a copied record, never
mutates its input). -/
theorem populate_preserves_other_fields (rawTx : TransactionData) (cc : ChainRuleset)
    (gas : Gas) :
    (populate rawTx cc gas).chainId = rawTx.chainId ∧
    (populate rawTx cc gas).nonce = rawTx.nonce ∧
    (populate rawTx cc gas).«to» = rawTx.«to» ∧
    (populate rawTx cc gas).value = rawTx.value ∧
    (populate rawTx cc gas).data = rawTx.data ∧
    (populate rawTx cc gas).gasLimit = rawTx.gasLimit := by
  cases hfees : gas.price.fees with
  | none =>
    rw [populate_eq_legacy rawTx cc gas (Or.inr hfees)]
    have h := populateLegacy_frames rawTx cc gas
    exact ⟨h.1, h.2.1, h.2.2.1, h.2.2.2.1, h.2.2.2.2.1, h.2.2.2.2.2.1⟩
  | some fees =>
    cases h1559 : cc.isActivatedEIP 1559 with
    | false =>
      rw [populate_eq_legacy rawTx cc gas (Or.inl h1559)]
      have h := populateLegacy_frames rawTx cc gas
      exact ⟨h.1, h.2.1, h.2.2.1, h.2.2.2.1, h.2.2.2.2.1, h.2.2.2.2.2.1⟩
    | true =>
      rw [populate_eq_feeMarket rawTx cc gas fees hfees h1559]
      have h := populateFeeMarket_frames rawTx fees
      exact ⟨h.1, h.2.1, h.2.2.1, h.2.2.2.1, h.2.2.2.2.1, h.2.2.2.2.2.1⟩

/-- Evaluating the dispatch table (`key in table` plus lookup, with `false`
for absent keys) agrees with the spec's closed compatibility matrix. -/
theorem londonHardforkSigners_eval (signer : SignerSummary) :
    (match londonHardforkSigners signer.type with
      | some predicate => predicate signer.appVersion signer.model
      | none => false) = londonCompatMatrix signer := by
  by_cases h1 : signer.type = "seed"
  · simp [londonHardforkSigners, londonCompatMatrix, h1]
  by_cases h2 : signer.type = "ring"
  · simp [londonHardforkSigners, londonCompatMatrix, h1, h2]
  by_cases h3 : signer.type = "ledger"
  · simp [londonHardforkSigners, londonCompatMatrix, h1, h2, h3, Bool.or_assoc, Bool.and_assoc]
  by_cases h4 : signer.type = "trezor"
  · by_cases hm : (signer.model.getD "").toLower = "trezor one"
    · simp [londonHardforkSigners, londonCompatMatrix, trezorCompat, h1, h2, h3, h4, hm,
        Bool.or_assoc, Bool.and_assoc]
    · simp [londonHardforkSigners, londonCompatMatrix, trezorCompat, h1, h2, h3, h4, hm,
        Bool.or_assoc, Bool.and_assoc]
  by_cases h5 : signer.type = "lattice"
  · simp [londonHardforkSigners, londonCompatMatrix, h1, h2, h3, h4, h5, Bool.or_assoc,
      Bool.and_assoc]
  · simp [londonHardforkSigners, londonCompatMatrix, h1, h2, h3, h4, h5]

/-- **C7.** For a transaction whose type supports a base fee,
`signerCompatibility` returns tx `'london'` with `compatible` given exactly
by the version-gated matrix (seed/ring always true; ledger 2.x+ or 1.9+;
trezor one 2.x+ or 1.10.4+/1.11+; other trezor 3.x+, 2.5+ or 2.4.2+;
lattice major ≥ 1 or minor ≥ 11; unknown types false); otherwise it returns
tx `'legacy'` with `compatible = true`. -/
theorem signerCompatibility_matrix (txData : TransactionData) (signer : SignerSummary) :
    (typeSupportsBaseFee txData.type = true →
      signerCompatibility txData signer =
        { signer := signer.type, tx := "london", compatible := londonCompatMatrix signer }) ∧
    (typeSupportsBaseFee txData.type = false →
      signerCompatibility txData signer =
        { signer := signer.type, tx := "legacy", compatible := true }) := by
  constructor <;> intro h
  · simp only [signerCompatibility, h, if_true]
    rw [← londonHardforkSigners_eval signer]
  · simp [signerCompatibility, h]

/-- Witness for C7 at a ledger signer and the two transaction families. -/
theorem signerCompatibility_matrix_witness :
    typeSupportsBaseFee sampleLondonTx.type = true ∧
    signerCompatibility sampleLondonTx ledgerOldSigner =
      { signer := ledgerOldSigner.type, tx := "london",
        compatible := londonCompatMatrix ledgerOldSigner } ∧
    typeSupportsBaseFee sampleLegacyTx.type = false ∧
    signerCompatibility sampleLegacyTx ledgerOldSigner =
      { signer := ledgerOldSigner.type, tx := "legacy", compatible := true } :=
  ⟨by decide, (signerCompatibility_matrix sampleLondonTx ledgerOldSigner).1 (by decide),
    by decide, (signerCompatibility_matrix sampleLegacyTx ledgerOldSigner).2 (by decide)⟩

/-- **C8.** `classifyTransaction` decides, in exactly this precedence order:
missing (falsy) `to` → CONTRACT_DEPLOY; else external recipient with data
payload beyond the bare `'0x'` marker → SEND_DATA; else non-zero hex data to
a non-external recipient → CONTRACT_CALL; else NATIVE_TRANSFER. -/
theorem classifyTransaction_precedence (req : TransactionRequest) :
    classifyTransaction req =
      (if req.«to» = none ∨ req.«to» = some "" then TxClassification.CONTRACT_DEPLOY
      else if req.recipientType = "external" ∧ (req.data.getD "0x").length > 2 then
        TxClassification.SEND_DATA
      else if isNonZeroHex (req.data.getD "0x") = true ∧ req.recipientType ≠ "external" then
        TxClassification.CONTRACT_CALL
      else TxClassification.NATIVE_TRANSFER) := by
  by_cases h1 : req.«to» = none ∨ req.«to» = some "" <;>
    by_cases h2 : req.recipientType = "external" <;>
      by_cases h3 : (req.data.getD "0x").length > 2 <;>
        by_cases h4 : isNonZeroHex (req.data.getD "0x") = true <;>
          simp [classifyTransaction, h1, h2, h3, h4]

end Frame
